import Mathlib

/-!
Shallow embedding of `src/app.py` (Brief Matcher Tool).

The file embeds the matching core of the application: the candidate
projection and prompt-side request construction inside `find_matches`,
the catch-all error handling around the model call, the JSON decoding
step (`json.loads`), the rendering dispatch of `display_matches`, and
the click handler guards of `main`.  The external pieces (Streamlit
widgets, the Gemini transport, the spreadsheet loader) are collaborators:
the raw model response enters the embedding as an explicit
`Except String String` value, and Streamlit render calls become
constructors of a result type.

Modelling notes, stated once here:
* Python values that flow through `json.loads` and the record
  dictionaries are embedded as `Json`.  JSON numbers are modelled as
  integers; float literals are outside the modelled subset (no claim
  involves them).
* Python `str()` is embedded by `pyStr`; container rendering follows the
  repr scheme of Python for the constructors used here, with `\x27`
  quoting for strings inside containers.
* `str.strip()` is embedded over the ASCII whitespace set of Python;
  exotic Unicode whitespace is outside the modelled subset.
-/

/-- A JSON value as produced by `json.loads`, also used for the values of
the spreadsheet record dictionaries (`df.to_dict("records")`). -/
inductive Json where
  | null : Json
  | bool : Bool → Json
  | num : Int → Json
  | str : String → Json
  | arr : List Json → Json
  | obj : List (String × Json) → Json
deriving Repr

/-- Python truthiness (`if matches:`): `None`, `False`, `0`, the empty
string, the empty list and the empty dict are falsy. -/
def Json.truthy : Json → Bool
  | .null => false
  | .bool b => b
  | .num n => n != 0
  | .str s => !s.isEmpty
  | .arr xs => !xs.isEmpty
  | .obj kvs => !kvs.isEmpty

mutual

/-- Python `repr` of an embedded value, used by `str()` on the elements of
a container. -/
def Json.pyReprAux : Json → String
  | .null => "None"
  | .bool true => "True"
  | .bool false => "False"
  | .num n => toString n
  | .str s => "\x27" ++ s ++ "\x27"
  | .arr xs => "[" ++ Json.pyReprList xs ++ "]"
  | .obj kvs => "\x7b" ++ Json.pyReprObj kvs ++ "\x7d"

/-- Comma-separated reprs of the elements of a list. -/
def Json.pyReprList : List Json → String
  | [] => ""
  | [x] => Json.pyReprAux x
  | x :: xs => Json.pyReprAux x ++ ", " ++ Json.pyReprList xs

/-- Comma-separated `key: value` reprs of the entries of a dict. -/
def Json.pyReprObj : List (String × Json) → String
  | [] => ""
  | [(k, v)] => "\x27" ++ k ++ "\x27: " ++ Json.pyReprAux v
  | (k, v) :: kvs => "\x27" ++ k ++ "\x27: " ++ Json.pyReprAux v ++ ", " ++ Json.pyReprObj kvs

end

/-- Python `str()` of an embedded value: like `repr` except that a
top-level string renders as itself, without quotes. -/
def Json.pyStr : Json → String
  | .str s => s
  | j => Json.pyReprAux j

/-- Python `d.get(key, default)` on a dict embedded as an association
list (first binding wins, as dict keys are unique). -/
def Json.dictGet (kvs : List (String × Json)) (k : String) (dflt : Json) : Json :=
  match kvs.find? (fun kv => kv.1 == k) with
  | some kv => kv.2
  | none => dflt

/-- A library record: one row of the spreadsheet after
`df.to_dict("records")` — a string-keyed dict. -/
abbrev Rcd := List (String × Json)

/-- `b.get(key, default)` on a record. -/
def Rcd.get (b : Rcd) (k : String) (dflt : Json) : Json :=
  Json.dictGet b k dflt

/-- `b.get(key)` on a record: default `None`. -/
def Rcd.getN (b : Rcd) (k : String) : Json :=
  Json.dictGet b k Json.null

/-- Whether a key is present in a record / projected candidate dict. -/
def Rcd.hasKey (b : Rcd) (k : String) : Bool :=
  (b.find? (fun kv => kv.1 == k)).isSome

/-- ASCII whitespace as recognised by `str.strip()`. -/
def pyIsSpace (c : Char) : Bool :=
  c == ' ' || c == '\t' || c == '\n' || c == '\x0d' || c == '\x0b' || c == '\x0c'

/-- Python `s.strip()`: drop leading and trailing whitespace. -/
def pyStrip (s : String) : String :=
  String.mk (((s.toList.dropWhile pyIsSpace).reverse.dropWhile pyIsSpace).reverse)

/-! ## `json.loads`

A recursive-descent decoder for the JSON subset handled by the claims:
`null`, `true`, `false`, integer numbers, strings with the single-character
escapes, arrays and objects.  Float literals and `\u` escapes are outside
the modelled subset (the decoder rejects them; no claim exercises them).
Duplicate object keys keep the last value, as in Python.  A failed decode
models `json.loads` raising `JSONDecodeError`. -/

/-- Whitespace skipped between JSON tokens. -/
def jsonWs (c : Char) : Bool :=
  c == ' ' || c == '\t' || c == '\n' || c == '\x0d'

/-- Skip inter-token whitespace. -/
def skipWs (cs : List Char) : List Char :=
  cs.dropWhile jsonWs

/-- Decode the body of a string literal, after the opening quote.
Returns the decoded text and the input after the closing quote. -/
def parseStringBody : List Char → Option (List Char × List Char)
  | [] => none
  | '"' :: rest => some ([], rest)
  | '\\' :: e :: rest =>
    match (match e with
           | '"' => some '"'
           | '\\' => some '\\'
           | '/' => some '/'
           | 'n' => some '\n'
           | 't' => some '\t'
           | 'r' => some '\x0d'
           | 'b' => some '\x08'
           | 'f' => some '\x0c'
           | _ => none) with
    | none => none
    | some c =>
      match parseStringBody rest with
      | none => none
      | some (s, rest2) => some (c :: s, rest2)
  | c :: rest =>
    match parseStringBody rest with
    | none => none
    | some (s, rest2) => some (c :: s, rest2)

/-- Natural number denoted by a digit run. -/
def digitsToNat (ds : List Char) : Nat :=
  ds.foldl (fun a c => a * 10 + (c.toNat - 48)) 0

/-- Insert a key into a decoded object, replacing an existing binding in
place (Python dict semantics: last value, first position). -/
def dictInsert (kvs : List (String × Json)) (k : String) (v : Json) : List (String × Json) :=
  if kvs.any (fun kv => kv.1 == k) then
    kvs.map (fun kv => if kv.1 == k then (k, v) else kv)
  else
    kvs ++ [(k, v)]

mutual

/-- Decode one JSON value; fuel bounds the recursion depth. -/
def parseValue : Nat → List Char → Option (Json × List Char)
  | 0, _ => none
  | Nat.succ f, cs =>
    match skipWs cs with
    | 'n' :: 'u' :: 'l' :: 'l' :: rest => some (Json.null, rest)
    | 't' :: 'r' :: 'u' :: 'e' :: rest => some (Json.bool true, rest)
    | 'f' :: 'a' :: 'l' :: 's' :: 'e' :: rest => some (Json.bool false, rest)
    | '"' :: rest =>
      match parseStringBody rest with
      | none => none
      | some (s, rest2) => some (Json.str (String.mk s), rest2)
    | '[' :: rest =>
      (match skipWs rest with
       | ']' :: rest2 => some (Json.arr [], rest2)
       | _ =>
         match parseElems f rest with
         | none => none
         | some (xs, rest2) => some (Json.arr xs, rest2))
    | '\x7b' :: rest =>
      (match skipWs rest with
       | '\x7d' :: rest2 => some (Json.obj [], rest2)
       | _ =>
         match parseMembers f [] rest with
         | none => none
         | some (kvs, rest2) => some (Json.obj kvs, rest2))
    | '-' :: rest =>
      (match rest.takeWhile Char.isDigit with
       | [] => none
       | ds => some (Json.num (-(Int.ofNat (digitsToNat ds))), rest.dropWhile Char.isDigit))
    | c :: rest =>
      if c.isDigit then
        some (Json.num (Int.ofNat (digitsToNat ((c :: rest).takeWhile Char.isDigit))),
              (c :: rest).dropWhile Char.isDigit)
      else none
    | [] => none

/-- Decode the comma-separated elements of a non-empty array, up to and
including the closing bracket. -/
def parseElems : Nat → List Char → Option (List Json × List Char)
  | 0, _ => none
  | Nat.succ f, cs =>
    match parseValue f cs with
    | none => none
    | some (v, rest) =>
      match skipWs rest with
      | ',' :: rest2 =>
        (match parseElems f rest2 with
         | none => none
         | some (xs, rest3) => some (v :: xs, rest3))
      | ']' :: rest2 => some ([v], rest2)
      | _ => none

/-- Decode the comma-separated members of a non-empty object, up to and
including the closing brace. -/
def parseMembers : Nat → List (String × Json) → List Char → Option (List (String × Json) × List Char)
  | 0, _, _ => none
  | Nat.succ f, acc, cs =>
    match skipWs cs with
    | '"' :: rest =>
      (match parseStringBody rest with
       | none => none
       | some (k, rest2) =>
         match skipWs rest2 with
         | ':' :: rest3 =>
           (match parseValue f rest3 with
            | none => none
            | some (v, rest4) =>
              let acc2 := dictInsert acc (String.mk k) v
              match skipWs rest4 with
              | ',' :: rest5 => parseMembers f acc2 rest5
              | '\x7d' :: rest5 => some (acc2, rest5)
              | _ => none)
         | _ => none)
    | _ => none

end

/-- `json.loads`: decode the whole string; trailing non-whitespace makes
the decode fail.  `none` models a raised `JSONDecodeError`. -/
def jsonLoads (s : String) : Option Json :=
  match parseValue (2 * s.length + 4) s.toList with
  | none => none
  | some (v, rest) => if (skipWs rest).isEmpty then some v else none

/-! ## `find_matches` (src/app.py lines 61-124) -/

/-- The candidate projection built at the top of `find_matches`: one
`simplified_briefs.append(...)` entry, with the exact keys and `get`
defaults of the source. -/
def projectBrief (b : Rcd) : Rcd :=
  [("ID", b.get "ID" (Json.str "")),
   ("Generic_Campaign_Concept", b.get "Generic_Campaign_Concept" (Json.str "")),
   ("Generic_Brand_Category", b.get "Generic_Brand_Category" (Json.str "")),
   ("Generic_Key_Objective", b.get "Generic_Key_Objective" (Json.str "")),
   ("Generic_Audience_Profile", b.get "Generic_Audience_Profile" (Json.str "")),
   ("Core_Creative_Tactic", b.get "Core_Creative_Tactic" (Json.str "")),
   ("Supporting_Media_Tactics", b.get "Supporting_Media_Tactics" (Json.str "")),
   ("Budget_Description", b.get "Budget_Description" (Json.str "")),
   ("Minimum_Viable_Budget", b.get "Minimum_Viable_Budget" (Json.num 0))]

/-- `simplified_briefs`: the projection of the whole library, in order. -/
def simplified_briefs (brief_library : List Rcd) : List Rcd :=
  brief_library.map projectBrief

/-- The content interpolated into the prompt f-string of `find_matches`.
The template text is a constant; the request is captured by the four
interpolated values (the candidates are serialised into the prompt with
`json.dumps`, a total rendering, so the projected list itself is the
request payload). -/
structure MatchRequest where
  new_brief : String
  params : String
  user_budget : Int
  candidates : List Rcd

/-- Assembling the request inside `find_matches`: list projection plus
prompt interpolation, none of which can fail. -/
def buildRequest (new_brief : String) (params : String) (user_budget : Int)
    (brief_library : List Rcd) : MatchRequest :=
  ⟨new_brief, params, user_budget, simplified_briefs brief_library⟩

/-- Outcome of the external model call, an input to the embedding: the
transport either produced a raw `response.text` or raised. -/
inductive ApiResult where
  | raw : String → ApiResult
  | failure : String → ApiResult

/-- What `find_matches` hands back to its caller: the returned value
(`matches` in the source; `matches` is a Lean keyword, hence `returned`)
and whether the `except` branch displayed its error and warning
messages. -/
structure FindOutcome where
  returned : Json
  errorDisplayed : Bool

/-- The `try`/`except` tail of `find_matches`: on any exception from the
model call or from `json.loads`, display the messages and return `[]`;
otherwise return the decoded response unchanged. -/
def find_matches (resp : ApiResult) : FindOutcome :=
  match resp with
  | .failure _ => ⟨Json.arr [], true⟩
  | .raw text =>
    match jsonLoads text with
    | none => ⟨Json.arr [], true⟩
    | some v => ⟨v, false⟩

/-! ## `display_matches` (src/app.py lines 127-164) -/

/-- `matches[0]`: Python subscripting by the integer `0`.  Lists index,
strings index (yielding a one-character string), a string-keyed dict
raises `KeyError`, everything else raises `TypeError`. -/
def pySubscript0 : Json → Except String Json
  | .arr (x :: _) => .ok x
  | .arr [] => .error "IndexError"
  | .str s =>
    match s.toList with
    | c :: _ => .ok (Json.str (String.mk [c]))
    | [] => .error "IndexError"
  | .obj _ => .error "KeyError: 0"
  | _ => .error "TypeError: not subscriptable"

/-- `match.get(key, default)`: only a dict has `.get`; any other value
raises `AttributeError`. -/
def pyDictGet (j : Json) (k : String) (dflt : Json) : Except String Json :=
  match j with
  | .obj kvs => .ok (Json.dictGet kvs k dflt)
  | _ => .error "AttributeError: no attribute get"

/-- One Streamlit interaction of `display_matches`: what reaches the
user, or an exception escaping into the rendering layer (`crash`). -/
inductive DisplayResult where
  | noMatches : DisplayResult
  | missingID : DisplayResult
  | rendered : Rcd → Json → DisplayResult
  | notFound : Json → DisplayResult
  | crash : String → DisplayResult

/-- `display_matches(matches, brief_library)`, straight-line from the
source: truthiness test, `matches[0]`, the two `.get` calls, the falsy-ID
warning, then the `next(...)` reconciliation by `str(...)` equality.
The first argument is `matches` in the source (a Lean keyword). -/
def display_matches (matchesArg : Json) (brief_library : List Rcd) : DisplayResult :=
  if matchesArg.truthy then
    match pySubscript0 matchesArg with
    | .error e => .crash e
    | .ok mtc =>
      match pyDictGet mtc "ID" Json.null with
      | .error e => .crash e
      | .ok match_id =>
        match pyDictGet mtc "scaled_reason" (Json.str "No reason provided.") with
        | .error e => .crash e
        | .ok reason =>
          if !match_id.truthy then .missingID
          else
            match brief_library.find? (fun b => Json.pyStr (b.getN "ID") == Json.pyStr match_id) with
            | some original_brief => .rendered original_brief reason
            | none => .notFound match_id
  else .noMatches

/-! ## The click handler of `main` (src/app.py lines 228-248) -/

/-- The `additional_params` f-string assembled in the click handler. -/
def additionalParams (target_audience : String) (proposed_channels : List String)
    (duration_days : Int) : String :=
  "\n                    Target Audience: " ++ target_audience ++
  "\n                    Proposed Media Channels: " ++ String.intercalate ", " proposed_channels ++
  "\n                    Duration: " ++ toString duration_days ++ " days\n                    "

/-- Which branch of the `Find Matches` button handler ran: one of the two
input warnings, or the call into `find_matches` with the built request. -/
inductive ClickOutcome where
  | warnedEmptyBrief : ClickOutcome
  | warnedEmptyLibrary : ClickOutcome
  | calledFindMatches : MatchRequest → ClickOutcome

/-- The guard chain of the button handler: empty-after-strip brief text
warns, an empty (or failed-to-load) library warns, otherwise
`find_matches` is invoked with the assembled inputs. -/
def mainOnClick (new_brief_text : String) (target_audience : String)
    (proposed_channels : List String) (duration_days : Int) (budget_value : Int)
    (brief_library : List Rcd) : ClickOutcome :=
  if (pyStrip new_brief_text).isEmpty then .warnedEmptyBrief
  else if brief_library.isEmpty then .warnedEmptyLibrary
  else .calledFindMatches
    (buildRequest new_brief_text
      (additionalParams target_audience proposed_channels duration_days)
      budget_value brief_library)

/-! ## BudgetScaler -/

/-- Modelled from the spec: the repository has no `BudgetScaler.evaluate`
function — the budget rules exist in src/app.py only as prompt text
(SCENARIO A / SCENARIO B, lines 94-105) interpreted by the external
model.  Following section 4.3 of the spec, a candidate carries its
`minimum_viable_budget` and the ordered `(label, price)` tiers parsed
from its budget description. -/
structure Candidate where
  minimum_viable_budget : Int
  tiers : List (String × Int)

/-- Modelled from the spec: the decision type of `BudgetScaler.evaluate`. -/
inductive Decision where
  | Accepted : String → Decision
  | Rejected : Decision
deriving Repr, DecidableEq

/-- The highest tier whose price is at most the client budget, scanning
the ordered tier list. -/
def bestTier (tiers : List (String × Int)) (client_budget : Int) : Option (String × Int) :=
  tiers.foldl
    (fun acc t =>
      if t.2 ≤ client_budget then
        match acc with
        | none => some t
        | some a => if a.2 < t.2 then some t else some a
      else acc)
    none

/-- Modelled from the spec: `BudgetScaler.evaluate`, rules in order —
below the minimum viable budget reject; otherwise accept the label of the
highest tier priced within budget; otherwise accept the core-tactic
sentinel. -/
def BudgetScaler.evaluate (candidate : Candidate) (client_budget : Int) : Decision :=
  if client_budget < candidate.minimum_viable_budget then
    .Rejected
  else
    match bestTier candidate.tiers client_budget with
    | some t => .Accepted t.1
    | none => .Accepted "core tactic"

/-! ## Helper lemmas and sanity checks -/

/-- Sanity: the embedded decoder handles the basic shapes the claims
exercise, and rejects non-JSON text, trailing garbage and trailing
commas, as `json.loads` does. -/
theorem jsonLoads_sanity :
    jsonLoads "not json" = none ∧
    jsonLoads "[]" = some (Json.arr []) ∧
    jsonLoads " \x7b\"ID\": \"7\", \"scaled_reason\": \"x\"\x7d " =
      some (Json.obj [("ID", Json.str "7"), ("scaled_reason", Json.str "x")]) ∧
    jsonLoads "[\x7b\"ID\": 7\x7d, [1, -2], null, true]" =
      some (Json.arr [Json.obj [("ID", Json.num 7)], Json.arr [Json.num 1, Json.num (-2)],
                      Json.null, Json.bool true]) ∧
    jsonLoads "[1,]" = none ∧
    jsonLoads "[1] x" = none :=
  ⟨rfl, rfl, rfl, rfl, rfl, rfl⟩

/-- Sanity: the embedded `str()` and `strip()` agree with Python on the
values the claims exercise. -/
theorem pyStr_and_pyStrip_sanity :
    Json.pyStr Json.null = "None" ∧
    Json.pyStr (Json.arr [Json.num 1, Json.str "a"]) = "[1, \x27a\x27]" ∧
    pyStrip "  \t\n " = "" ∧
    pyStrip " a b " = "a b" :=
  ⟨rfl, rfl, rfl, rfl⟩

/-- Sanity: the spec scenario at budget 25000 accepts the Full tier. -/
theorem budget_scaler_full_tier_scenario :
    BudgetScaler.evaluate ⟨10000, [("Reduced", 5000), ("Full", 20000)]⟩ 25000 =
      Decision.Accepted "Full" :=
  rfl

/-- A record is only ever rendered when the reconciliation lookup found
it in the library. -/
theorem display_rendered_mem (m : Json) (brief_library : List Rcd) (b : Rcd) (r : Json)
    (h : display_matches m brief_library = DisplayResult.rendered b r) : b ∈ brief_library := by
  unfold display_matches at h
  split at h
  · split at h
    · exact DisplayResult.noConfusion h
    · split at h
      · exact DisplayResult.noConfusion h
      · split at h
        · exact DisplayResult.noConfusion h
        · split at h
          · exact DisplayResult.noConfusion h
          · split at h
            · rename_i original_brief heq
              injection h with h1 h2
              subst h1
              exact List.mem_of_find?_eq_some heq
            · exact DisplayResult.noConfusion h
  · exact DisplayResult.noConfusion h

/-! ## Claims -/

/-- C1: the claim states that no failure inside the matching operation
raises an exception into the rendering collaborator — in particular that
`display_matches` handles every shape of the `matches` value without
raising.  The code violates this: when the model answers with a bare JSON
object instead of an array (the prompt itself invites the confusion by
asking for a single JSON object in an array), `find_matches` returns the
decoded dict without error — and `display_matches` evaluates
`matches[0]` on that dict, raising `KeyError` straight into the
rendering layer. -/
theorem c1_display_crash_on_object_response :
    find_matches (ApiResult.raw "\x7b\"ID\": \"1\", \"scaled_reason\": \"x\"\x7d") =
      ⟨Json.obj [("ID", Json.str "1"), ("scaled_reason", Json.str "x")], false⟩ ∧
    display_matches (Json.obj [("ID", Json.str "1"), ("scaled_reason", Json.str "x")]) [] =
      DisplayResult.crash "KeyError: 0" :=
  ⟨rfl, rfl⟩

/-- C2: for every brief text that is empty after stripping, and for every
empty library, the click handler stops at an input warning and
`find_matches` is never called — no request is built and no network
interaction occurs. -/
theorem c2_empty_inputs_never_reach_find_matches (new_brief_text target_audience : String)
    (proposed_channels : List String) (duration_days budget_value : Int)
    (brief_library : List Rcd)
    (h : pyStrip new_brief_text = "" ∨ brief_library = []) :
    (mainOnClick new_brief_text target_audience proposed_channels duration_days
        budget_value brief_library = ClickOutcome.warnedEmptyBrief ∨
     mainOnClick new_brief_text target_audience proposed_channels duration_days
        budget_value brief_library = ClickOutcome.warnedEmptyLibrary) ∧
    ∀ req, mainOnClick new_brief_text target_audience proposed_channels duration_days
        budget_value brief_library ≠ ClickOutcome.calledFindMatches req := by
  unfold mainOnClick
  by_cases h1 : (pyStrip new_brief_text).isEmpty
  · rw [if_pos h1]
    exact ⟨Or.inl rfl, fun req => ClickOutcome.noConfusion⟩
  · have h2 : brief_library.isEmpty := by
      rcases h with h | h
      · exact absurd (by rw [h]; rfl) h1
      · rw [h]; rfl
    rw [if_neg h1, if_pos h2]
    exact ⟨Or.inr rfl, fun req => ClickOutcome.noConfusion⟩

/-- C2 witness: a whitespace-only brief with a non-empty library warns
and never calls `find_matches`. -/
theorem c2_witness :
    (mainOnClick "  \t " "aud" ["Print"] 30 50000 [[("ID", Json.str "1")]] =
        ClickOutcome.warnedEmptyBrief ∨
     mainOnClick "  \t " "aud" ["Print"] 30 50000 [[("ID", Json.str "1")]] =
        ClickOutcome.warnedEmptyLibrary) ∧
    ∀ req, mainOnClick "  \t " "aud" ["Print"] 30 50000 [[("ID", Json.str "1")]] ≠
        ClickOutcome.calledFindMatches req :=
  c2_empty_inputs_never_reach_find_matches "  \t " "aud" ["Print"] 30 50000
    [[("ID", Json.str "1")]] (Or.inl (by decide))

/-- C3 counterexample: the claim states that `parse` fails with
`SchemaError` whenever the parsed value is not a sequence of objects each
containing a non-empty id.  The code has no schema validation: a decoded
entry with no `ID` at all is returned as a successful, diagnostic-free
result by `find_matches`. -/
theorem c3_counterexample_no_schema_failure :
    find_matches (ApiResult.raw "[\x7b\"explanation\": \"x\"\x7d]") =
      ⟨Json.arr [Json.obj [("explanation", Json.str "x")]], false⟩ :=
  rfl

/-- C3 amended: raw text that is not well-formed JSON takes the caught
`except` path — a displayed message and an empty returned list (this is
the whole of the FormatError handling, and covers the `"not json"`
example); but no SchemaError exists: every well-formed decode, of
whatever shape, is returned unchanged with no diagnostic, and a missing
id is only warned about later, at display time. -/
theorem c3_parse_failure_handling (raw : String) :
    (jsonLoads raw = none →
        find_matches (ApiResult.raw raw) = ⟨Json.arr [], true⟩) ∧
    (∀ v, jsonLoads raw = some v →
        find_matches (ApiResult.raw raw) = ⟨v, false⟩) ∧
    jsonLoads "not json" = none ∧
    display_matches (Json.arr [Json.obj [("explanation", Json.str "x")]]) [] =
      DisplayResult.missingID := by
  refine ⟨fun h => ?_, fun v h => ?_, rfl, rfl⟩
  · simp only [find_matches, h]
  · simp only [find_matches, h]

/-- C3 witness: on the raw text `"not json"` the decode fails and
`find_matches` displays the message and returns the empty list. -/
theorem c3_witness :
    find_matches (ApiResult.raw "not json") = ⟨Json.arr [], true⟩ :=
  (c3_parse_failure_handling "not json").1 rfl

/-- C4: reconciliation of a returned id against the library is by
string-normalised equality.  A response whose single entry has id `"7"`
renders the first library record whose `str(ID)` is `"7"` — which covers
a record whose ID is the string `"7"` and one whose ID is the number `7`
alike — and reaches the not-found path when no record normalises to
`"7"`. -/
theorem c4_reconciliation_by_string_normalized_id (brief_library : List Rcd) :
    jsonLoads "[\x7b\"ID\":\"7\",\"scaled_reason\":\"x\"\x7d]" =
      some (Json.arr [Json.obj [("ID", Json.str "7"), ("scaled_reason", Json.str "x")]]) ∧
    Json.pyStr (Json.str "7") = "7" ∧
    Json.pyStr (Json.num 7) = "7" ∧
    (∀ b, brief_library.find? (fun b => Json.pyStr (b.getN "ID") == "7") = some b →
        display_matches (Json.arr [Json.obj [("ID", Json.str "7"), ("scaled_reason", Json.str "x")]])
          brief_library = DisplayResult.rendered b (Json.str "x")) ∧
    ((∀ b ∈ brief_library, Json.pyStr (b.getN "ID") ≠ "7") →
        display_matches (Json.arr [Json.obj [("ID", Json.str "7"), ("scaled_reason", Json.str "x")]])
          brief_library = DisplayResult.notFound (Json.str "7")) := by
  have hstep : display_matches
      (Json.arr [Json.obj [("ID", Json.str "7"), ("scaled_reason", Json.str "x")]]) brief_library =
      (match brief_library.find? (fun b => Json.pyStr (b.getN "ID") == "7") with
       | some b => DisplayResult.rendered b (Json.str "x")
       | none => DisplayResult.notFound (Json.str "7")) := rfl
  refine ⟨rfl, rfl, rfl, fun b hb => ?_, fun hnone => ?_⟩
  · rw [hstep, hb]
  · have hfind : brief_library.find? (fun b => Json.pyStr (b.getN "ID") == "7") = none := by
      rw [List.find?_eq_none]
      intro x hx
      simpa using hnone x hx
    rw [hstep, hfind]

/-- C4 witness: a library whose record carries the numeric ID `7` is
matched by the response id `"7"` and rendered. -/
theorem c4_witness :
    display_matches (Json.arr [Json.obj [("ID", Json.str "7"), ("scaled_reason", Json.str "x")]])
        [[("ID", Json.num 7)]] = DisplayResult.rendered [("ID", Json.num 7)] (Json.str "x") :=
  (c4_reconciliation_by_string_normalized_id [[("ID", Json.num 7)]]).2.2.2.1
    [("ID", Json.num 7)] rfl

/-- C5 counterexample: the claim states that an entry whose id has no
corresponding record is dropped with a warning and the rest of the
sequence is still returned and displayed.  In the code an unresolved
first id ends the display: with a response of two entries whose second id
resolves in the library, nothing is rendered — the outcome is only the
not-found error for the first id. -/
theorem c5_counterexample_rest_not_displayed :
    display_matches
        (Json.arr [Json.obj [("ID", Json.str "99"), ("scaled_reason", Json.str "a")],
                   Json.obj [("ID", Json.str "1"), ("scaled_reason", Json.str "b")]])
        [[("ID", Json.str "1")]] =
      DisplayResult.notFound (Json.str "99") :=
  rfl

/-- C5 amended: an unresolved id is handled non-fatally — when the first
entry of the response is an object whose truthy id matches no library
record, `display_matches` shows the not-found error message and raises
nothing; but the remaining entries are neither returned nor displayed:
only the first entry is ever examined, so nothing is rendered at all. -/
theorem c5_unresolved_first_id_nonfatal_blocks_rest (kvs : List (String × Json))
    (rest : List Json) (brief_library : List Rcd)
    (hid : (Json.dictGet kvs "ID" Json.null).truthy = true)
    (hfind : brief_library.find?
        (fun b => Json.pyStr (b.getN "ID") == Json.pyStr (Json.dictGet kvs "ID" Json.null)) =
        none) :
    display_matches (Json.arr (Json.obj kvs :: rest)) brief_library =
      DisplayResult.notFound (Json.dictGet kvs "ID" Json.null) := by
  have hstep : display_matches (Json.arr (Json.obj kvs :: rest)) brief_library =
      (if !(Json.dictGet kvs "ID" Json.null).truthy then DisplayResult.missingID
       else
         match brief_library.find?
             (fun b => Json.pyStr (b.getN "ID") == Json.pyStr (Json.dictGet kvs "ID" Json.null)) with
         | some original_brief =>
             DisplayResult.rendered original_brief
               (Json.dictGet kvs "scaled_reason" (Json.str "No reason provided."))
         | none => DisplayResult.notFound (Json.dictGet kvs "ID" Json.null)) := rfl
  rw [hstep, hid, hfind]
  rfl

/-- C5 witness: a one-entry response with the unresolved id `"99"`
against the empty library displays the not-found message. -/
theorem c5_witness :
    display_matches (Json.arr [Json.obj [("ID", Json.str "99"), ("scaled_reason", Json.str "a")]])
        [] = DisplayResult.notFound (Json.str "99") :=
  c5_unresolved_first_id_nonfatal_blocks_rest
    [("ID", Json.str "99"), ("scaled_reason", Json.str "a")] [] [] rfl rfl

/-- C6: for every candidate and every client budget strictly below the
minimum viable budget of the candidate, `BudgetScaler.evaluate` yields
`Rejected`, whatever the tier contents. -/
theorem c6_below_minimum_always_rejected (candidate : Candidate) (client_budget : Int)
    (h : client_budget < candidate.minimum_viable_budget) :
    BudgetScaler.evaluate candidate client_budget = Decision.Rejected := by
  unfold BudgetScaler.evaluate
  rw [if_pos h]

/-- C6 witness: a budget of 8000 against a minimum viable budget of
10000 is rejected, tiers notwithstanding. -/
theorem c6_witness :
    BudgetScaler.evaluate ⟨10000, [("Reduced", 5000), ("Full", 20000)]⟩ 8000 =
      Decision.Rejected :=
  c6_below_minimum_always_rejected ⟨10000, [("Reduced", 5000), ("Full", 20000)]⟩ 8000
    (by decide)

/-- C7: `BudgetScaler.evaluate` is a pure, deterministic function of the
candidate and the budget — identical inputs yield identical decisions,
with no model call involved. -/
theorem c7_evaluate_deterministic (x y : Candidate) (m n : Int) (hc : x = y) (hb : m = n) :
    BudgetScaler.evaluate x m = BudgetScaler.evaluate y n := by
  rw [hc, hb]

/-- C7 witness: two evaluations of the same pair agree, and the decision
is computable independent of any model call — budget 15000 against tiers
Reduced 5000 and Full 20000 accepts the Reduced tier. -/
theorem c7_witness :
    BudgetScaler.evaluate ⟨10000, [("Reduced", 5000), ("Full", 20000)]⟩ 15000 =
      BudgetScaler.evaluate ⟨10000, [("Reduced", 5000), ("Full", 20000)]⟩ 15000 ∧
    BudgetScaler.evaluate ⟨10000, [("Reduced", 5000), ("Full", 20000)]⟩ 15000 =
      Decision.Accepted "Reduced" :=
  ⟨c7_evaluate_deterministic ⟨10000, [("Reduced", 5000), ("Full", 20000)]⟩
      ⟨10000, [("Reduced", 5000), ("Full", 20000)]⟩ 15000 15000 rfl rfl, rfl⟩

/-- C8 counterexample: the claim states that every projected candidate
carries both id and kind.  The projection of `find_matches` has no kind
field at all: even when a source record carries a `Kind` column, the
projected candidate keeps `ID` but drops any kind key. -/
theorem c8_counterexample_projection_has_no_kind :
    Rcd.hasKey (projectBrief [("ID", Json.str "5"), ("Kind", Json.str "CaseStudy")]) "ID" = true ∧
    Rcd.hasKey (projectBrief [("ID", Json.str "5"), ("Kind", Json.str "CaseStudy")]) "kind" = false ∧
    Rcd.hasKey (projectBrief [("ID", Json.str "5"), ("Kind", Json.str "CaseStudy")]) "Kind" = false :=
  ⟨rfl, rfl, rfl⟩

/-- C8 amended: for every non-empty brief text and non-empty library the
click handler reaches `find_matches` with the built request, request
construction always succeeds, and the candidate projection has one entry
per record carrying the ID of that record (empty-string default); the
projected candidates carry no kind field — the projection has the nine
fixed descriptive and budget keys only. -/
theorem c8_build_succeeds_and_projection_carries_ids (new_brief_text target_audience : String)
    (proposed_channels : List String) (duration_days budget_value : Int)
    (brief_library : List Rcd)
    (hbrief : (pyStrip new_brief_text).isEmpty = false)
    (hlib : brief_library.isEmpty = false) :
    mainOnClick new_brief_text target_audience proposed_channels duration_days budget_value
        brief_library =
      ClickOutcome.calledFindMatches
        (buildRequest new_brief_text
          (additionalParams target_audience proposed_channels duration_days)
          budget_value brief_library) ∧
    (buildRequest new_brief_text
        (additionalParams target_audience proposed_channels duration_days)
        budget_value brief_library).candidates = simplified_briefs brief_library ∧
    ∀ b ∈ brief_library,
      projectBrief b ∈ simplified_briefs brief_library ∧
      Rcd.hasKey (projectBrief b) "ID" = true ∧
      (projectBrief b).getN "ID" = b.get "ID" (Json.str "") := by
  refine ⟨?_, rfl, fun b hb => ⟨List.mem_map_of_mem projectBrief hb, rfl, rfl⟩⟩
  simp [mainOnClick, hbrief, hlib]

/-- C8 witness: a concrete brief and a one-record library reach
`find_matches` with the built request. -/
theorem c8_witness :
    mainOnClick "brief text" "" [] 30 50000 [[("ID", Json.str "9")]] =
      ClickOutcome.calledFindMatches
        (buildRequest "brief text" (additionalParams "" [] 30) 50000
          [[("ID", Json.str "9")]]) :=
  (c8_build_succeeds_and_projection_carries_ids "brief text" "" [] 30 50000
    [[("ID", Json.str "9")]] rfl rfl).1

/-- C9 counterexample: the claim states that in budget-aware mode the
sequence produced by the matching operation always has 0 or 1 elements.
`find_matches` enforces nothing: a raw response holding two entries is
returned as a two-element sequence. -/
theorem c9_counterexample_two_matches_returned :
    find_matches (ApiResult.raw "[\x7b\"ID\": \"1\"\x7d, \x7b\"ID\": \"2\"\x7d]") =
      ⟨Json.arr [Json.obj [("ID", Json.str "1")], Json.obj [("ID", Json.str "2")]], false⟩ :=
  rfl

/-- C9 amended: `find_matches` returns the decoded model response
unvalidated — whatever its length and ids (the 0-or-1 bound lives only in
the prompt text) — and the 0-or-1-resolvable invariant holds only of
display: at most one record is ever rendered, and a record is rendered
only when it actually belongs to the library. -/
theorem c9_no_validation_before_display (raw : String) (v : Json) (brief_library : List Rcd)
    (h : jsonLoads raw = some v) :
    find_matches (ApiResult.raw raw) = ⟨v, false⟩ ∧
    ∀ b r, display_matches v brief_library = DisplayResult.rendered b r → b ∈ brief_library := by
  exact ⟨by simp only [find_matches, h],
         fun b r hr => display_rendered_mem v brief_library b r hr⟩

/-- C9 witness: the well-formed empty response is passed through as the
empty list with no error. -/
theorem c9_witness :
    find_matches (ApiResult.raw "[]") = ⟨Json.arr [], false⟩ :=
  (c9_no_validation_before_display "[]" (Json.arr []) [] rfl).1

/-- C10: for every matches sequence with at least one element, only the
first element is ever examined, reconciled or rendered — the display of
`matches` is identical to the display of its first element alone, so an
over-length response is truncated to one displayed match with no
warning. -/
theorem c10_only_first_match_examined (x : Json) (xs : List Json) (brief_library : List Rcd) :
    display_matches (Json.arr (x :: xs)) brief_library =
      display_matches (Json.arr [x]) brief_library :=
  rfl
